import Mathlib

/-!
Verification of the `mini_app` configuration and connection-lifecycle bootstrap.

The development shallowly embeds `src/mini_app/settings.py`, `src/mini_app/config.py`
and the lifecycle/health-check parts of `src/mini_app/main.py`:

* Python `str` is `String`, Python `int` is `Int` (arbitrary precision),
  Python dicts with string keys are association lists `List (String × ConfigVal)`.
* pydantic-settings construction of `MiniAppSettings` is embedded field by field:
  an absent environment variable yields the declared default; a present string
  first passes the `empty_str_to_none` before-validator; a validator result of
  `none` (Python `None`) then fails the per-field type validation, because no
  field of `MiniAppSettings` is `Optional`.
* Exceptions are `Except String`.
-/

namespace MiniApp

/-- `InstanceType` enum from `src/mini_app/settings.py`: type of database instance. -/
inductive InstanceType where
  | READONLY
  | RW
  deriving DecidableEq, BEq, Repr

/-- The `.value` of each enum member (`READONLY = "READONLY"`, `RW = "R/W"`). -/
def InstanceType.value : InstanceType → String
  | InstanceType.READONLY => "READONLY"
  | InstanceType.RW => "R/W"

/-- Value lookup `InstanceType(s)` of the Python `Enum` call: returns the member whose
`.value` equals `s`, or `none` (Python raises `ValueError`) when no member matches. -/
def InstanceType.ofValue (s : String) : Option InstanceType :=
  if s = "READONLY" then some InstanceType.READONLY
  else if s = "R/W" then some InstanceType.RW
  else none

/-- Embeds Python `str.upper()` on the ASCII fragment relevant here
(`String` in this toolchain is a structure over `List Char`). -/
def py_upper (s : String) : String :=
  String.mk (s.data.map Char.toUpper)

/-- Embeds Python `str.lower()` on the ASCII fragment relevant here. -/
def py_lower (s : String) : String :=
  String.mk (s.data.map Char.toLower)

/-- `MiniAppSettings.validate_instance_type` from `src/mini_app/settings.py`
(the string branch: `InstanceType(v.upper())`, with `ValueError` mapped to the
raised message). -/
def validate_instance_type (v : String) : Except String InstanceType :=
  match InstanceType.ofValue (py_upper v) with
  | some t => Except.ok t
  | none => Except.error "Invalid instance type. Must be READONLY or R/W."

/-- `MiniAppSettings.empty_str_to_none` from `src/mini_app/settings.py`:
`None if v == "" else v` on a provided string value. -/
def empty_str_to_none (v : String) : Option String :=
  if v = "" then none else some v

/-- Digit-run accumulator for decimal parsing of environment values. -/
def parse_digits_go : List Char → Nat → Option Nat
  | [], acc => some acc
  | c :: cs, acc =>
    if c.isDigit then parse_digits_go cs (acc * 10 + (c.toNat - 48)) else none

/-- Parses a non-empty run of decimal digits, as accepted by Python `int(...)`. -/
def parse_digits (l : List Char) : Option Nat :=
  if l = [] then none else parse_digits_go l 0

/-- Embeds the pydantic lax string-to-int coercion used for `cache_size` and `port`:
an optional sign followed by decimal digits; anything else is a validation error. -/
def py_int_of_string (s : String) : Option Int :=
  match s.data with
  | '+' :: rest => (parse_digits rest).map (fun n => (n : Int))
  | '-' :: rest => (parse_digits rest).map (fun n => -(n : Int))
  | l => (parse_digits l).map (fun n => (n : Int))

/-- Embeds the pydantic lax string-to-bool coercion used for `debug`. -/
def py_bool_of_string (s : String) : Option Bool :=
  if py_lower s ∈ (["true", "t", "yes", "y", "on", "1"] : List String) then some true
  else if py_lower s ∈ (["false", "f", "no", "n", "off", "0"] : List String) then some false
  else none

/-- `MiniAppSettings` from `src/mini_app/settings.py`, with its declared defaults. -/
structure MiniAppSettings where
  instance_type : InstanceType := InstanceType.RW
  cache_size : Int := 1
  db_dir : String := "/mini_app_data/"
  app_name : String := "Mini App"
  app_version : String := "0.1.0"
  debug : Bool := true
  host : String := "0.0.0.0"
  port : Int := 8080
  deriving DecidableEq, Repr

/-- The environment, restricted to the variables `MiniAppSettings` reads: each field
is the raw string value of the variable, or `none` when the variable is unset. -/
structure Env where
  INSTANCE_TYPE : Option String := none
  CACHE_SIZE : Option String := none
  DB_DIR : Option String := none
  APP_NAME : Option String := none
  APP_VERSION : Option String := none
  DEBUG : Option String := none
  HOST : Option String := none
  PORT : Option String := none
  deriving DecidableEq, Repr

/-- pydantic validation of one `str`-typed field: absent means default; a provided
string passes `empty_str_to_none`, and a resulting `None` fails `str` validation. -/
def load_str_field (raw : Option String) (dflt : String) : Except String String :=
  match raw with
  | none => Except.ok dflt
  | some s =>
    match empty_str_to_none s with
    | none => Except.error "Input should be a valid string"
    | some v => Except.ok v

/-- pydantic validation of one `int`-typed field: absent means default; a provided
string passes `empty_str_to_none`, a resulting `None` fails `int` validation, and a
remaining string must parse as an integer. -/
def load_int_field (raw : Option String) (dflt : Int) : Except String Int :=
  match raw with
  | none => Except.ok dflt
  | some s =>
    match empty_str_to_none s with
    | none => Except.error "Input should be a valid integer"
    | some v =>
      match py_int_of_string v with
      | some n => Except.ok n
      | none => Except.error "Input should be a valid integer"

/-- pydantic validation of one `bool`-typed field, analogous to `load_int_field`. -/
def load_bool_field (raw : Option String) (dflt : Bool) : Except String Bool :=
  match raw with
  | none => Except.ok dflt
  | some s =>
    match empty_str_to_none s with
    | none => Except.error "Input should be a valid boolean"
    | some v =>
      match py_bool_of_string v with
      | some b => Except.ok b
      | none => Except.error "Input should be a valid boolean"

/-- pydantic validation of the `instance_type` field: absent means default; a provided
string passes `empty_str_to_none` (a resulting `None` then fails the enum validation,
since the field is not `Optional`), and a remaining string goes through the
`validate_instance_type` before-validator. -/
def load_instance_type_field (raw : Option String) (dflt : InstanceType) :
    Except String InstanceType :=
  match raw with
  | none => Except.ok dflt
  | some s =>
    match empty_str_to_none s with
    | none => Except.error "Input should be READONLY or R/W"
    | some v => validate_instance_type v

/-- `MiniAppSettings()` construction from the environment (pydantic-settings):
each field is validated as above, and any field failure makes the whole
construction raise a validation error. -/
def MiniAppSettings.load (env : Env) : Except String MiniAppSettings := do
  let it ← load_instance_type_field env.INSTANCE_TYPE InstanceType.RW
  let cs ← load_int_field env.CACHE_SIZE 1
  let dd ← load_str_field env.DB_DIR "/mini_app_data/"
  let an ← load_str_field env.APP_NAME "Mini App"
  let av ← load_str_field env.APP_VERSION "0.1.0"
  let dbg ← load_bool_field env.DEBUG true
  let hs ← load_str_field env.HOST "0.0.0.0"
  let pt ← load_int_field env.PORT 8080
  Except.ok { instance_type := it, cache_size := cs, db_dir := dd, app_name := an,
              app_version := av, debug := dbg, host := hs, port := pt }

/-- `ORG_NAME` constant from `src/mini_app/config.py`. -/
def ORG_NAME : String := "miniapp"

/-- `PROJECT_NAME` constant from `src/mini_app/config.py`. -/
def PROJECT_NAME : String := "mini_app"

/-- `ENV` constant from `src/mini_app/config.py`. -/
def ENV : String := "dev"

/-- `DATA_PREFIX` from `src/mini_app/config.py`:
the f-string `/{ORG_NAME}/{PROJECT_NAME}/{ENV}/data`. -/
def DATA_PREFIX : String :=
  "/" ++ ORG_NAME ++ "/" ++ PROJECT_NAME ++ "/" ++ ENV ++ "/data"

/-- Values stored in the configuration dictionaries (Python dict values here are
strings, booleans or integers). -/
inductive ConfigVal where
  | str (s : String)
  | bool (b : Bool)
  | int (n : Int)
  deriving DecidableEq, Repr

/-- Embeds Python `x << n` on arbitrary-precision `int`: exact multiplication
by `2 ^ n`, with no truncation at any width. -/
def py_shl (x : Int) (n : Nat) : Int := x * 2 ^ n

/-- `get_dbzero_config` from `src/mini_app/config.py`, as a function of the
(memoized) settings it reads via `get_settings()`: the returned dict, with
`cache_size_bytes = settings.cache_size << 30`. The `print` it performs is
observability only and carries no data. -/
def get_dbzero_config (settings : MiniAppSettings) : List (String × ConfigVal) :=
  let cache_size_bytes : Int := py_shl settings.cache_size 30
  [("prefix", ConfigVal.str DATA_PREFIX),
   ("autocommit", ConfigVal.bool true),
   ("autocommit_interval", ConfigVal.int 2000),
   ("cache_size", ConfigVal.int cache_size_bytes),
   ("db0_dir", ConfigVal.str settings.db_dir)]

/-- The keyword arguments `lifespan` in `src/mini_app/main.py` hands to
`Connection.setup`: `read_write=(settings.instance_type == InstanceType.RW)`
followed by the unpacked `**config` from `get_dbzero_config`. -/
def setup_kwargs (settings : MiniAppSettings) : List (String × ConfigVal) :=
  ("read_write", ConfigVal.bool (settings.instance_type == InstanceType.RW)) ::
    get_dbzero_config settings

/-- `get_settings` from `src/mini_app/config.py` with its `@lru_cache()` decorator,
embedded by explicit cache-state passing: the cache is `none` before the first
call and `some s` afterwards; a cached call returns the cached value and never
re-reads the environment (the `env` argument of that call is ignored). -/
def get_settings (cache : Option MiniAppSettings) (env : Env) :
    Except String (MiniAppSettings × Option MiniAppSettings) :=
  match cache with
  | some s => Except.ok (s, some s)
  | none =>
    match MiniAppSettings.load env with
    | Except.ok s => Except.ok (s, some s)
    | Except.error e => Except.error e

/-- Lifecycle states of the process-wide storage-engine connection
(spec section 4.3 state machine: Uninitialized, Open, Closed). -/
inductive ConnState where
  | Uninitialized
  | Open
  | Closed
  deriving DecidableEq, Repr

/-- Modelled from the spec: `dbzero_ce.Connection.assure_initialized` is not part of
this repository; per spec section 4.3 it is an idempotent, read-only check that
succeeds exactly in the `Open` state and signals a fatal condition (an exception
carrying the failure reason) in `Uninitialized` or `Closed`. -/
def assure_initialized : ConnState → Except String Unit
  | ConnState.Open => Except.ok ()
  | ConnState.Uninitialized => Except.error "DBZero connection is not initialized"
  | ConnState.Closed => Except.error "DBZero connection is closed"

/-- An HTTP response: status code plus a flat string-to-string JSON body. -/
structure HttpResponse where
  status_code : Nat
  body : List (String × String)
  deriving DecidableEq, Repr

/-- The `health_check` endpoint handler from `src/mini_app/main.py`: calls
`Connection.assure_initialized()`; on success returns the healthy payload built
from the settings, and on any exception raises `HTTPException(503)` whose detail
is the f-string `Health check failed: {str(e)}`. -/
def health_check (conn : ConnState) (settings : MiniAppSettings) : HttpResponse :=
  match assure_initialized conn with
  | Except.ok _ =>
    { status_code := 200,
      body := [("status", "healthy"),
               ("app_name", settings.app_name),
               ("version", settings.app_version),
               ("dbzero_status", "connected"),
               ("instance_type", settings.instance_type.value)] }
  | Except.error e =>
    { status_code := 503, body := [("detail", "Health check failed: " ++ e)] }

/-- The shutdown half of `lifespan` from `src/mini_app/main.py` (the code after
`yield`). `closeResult` is the outcome of `Connection.close()` — modelled from the
spec, since `dbzero_ce` is external: it either succeeds or raises with a message.
The `try/except` logs a success line or the error line and never re-raises; the
final log line always runs. The result is `Except.ok logs`: an `Except.error`
result would mean the shutdown itself re-raised, which never happens. -/
def lifespan_shutdown (closeResult : Except String Unit) : Except String (List String) :=
  let logs0 := ["Shutting down Mini App..."]
  let logs1 :=
    match closeResult with
    | Except.ok _ => logs0 ++ ["DBZero connection closed successfully!"]
    | Except.error e => logs0 ++ ["Error during shutdown: " ++ e]
  Except.ok (logs1 ++ ["Shutdown complete!"])

/-- C1: the instance-mode validator matches its input case-insensitively (via
`upper()`) against the two enum spellings: the supported casings map to the
corresponding one of the two variants, the error message names both allowed
values, every string whose uppercasing is neither spelling is rejected with
that message, and every accepted string uppercases to one of the two spellings
and yields the matching variant. -/
theorem validate_instance_type_cases :
    (validate_instance_type "readonly" = Except.ok InstanceType.READONLY) ∧
    (validate_instance_type "READONLY" = Except.ok InstanceType.READONLY) ∧
    (validate_instance_type "r/w" = Except.ok InstanceType.RW) ∧
    (validate_instance_type "R/W" = Except.ok InstanceType.RW) ∧
    (∃ a b c, "Invalid instance type. Must be READONLY or R/W." =
      a ++ "READONLY" ++ b ++ "R/W" ++ c) ∧
    (∀ s : String, py_upper s ≠ "READONLY" → py_upper s ≠ "R/W" →
      validate_instance_type s =
        Except.error "Invalid instance type. Must be READONLY or R/W.") ∧
    (∀ s t, validate_instance_type s = Except.ok t →
      (py_upper s = "READONLY" ∧ t = InstanceType.READONLY) ∨
      (py_upper s = "R/W" ∧ t = InstanceType.RW)) := by
  refine ⟨rfl, rfl, rfl, rfl,
    ⟨"Invalid instance type. Must be ", " or ", ".", rfl⟩, ?_, ?_⟩
  · intro s h1 h2
    simp [validate_instance_type, InstanceType.ofValue, h1, h2]
  · intro s t h
    by_cases h1 : py_upper s = "READONLY"
    · left
      refine ⟨h1, ?_⟩
      simp [validate_instance_type, InstanceType.ofValue, h1] at h
      exact h.symm
    · by_cases h2 : py_upper s = "R/W"
      · right
        refine ⟨h2, ?_⟩
        simp [validate_instance_type, InstanceType.ofValue, h1, h2] at h
        exact h.symm
      · simp [validate_instance_type, InstanceType.ofValue, h1, h2] at h

/-- Witness for C1 at the concrete inputs "primary" (rejected) and "Readonly"
(accepted, mixed case). -/
theorem validate_instance_type_cases_witness :
    (validate_instance_type "primary" =
      Except.error "Invalid instance type. Must be READONLY or R/W.") ∧
    ((py_upper "Readonly" = "READONLY" ∧ InstanceType.READONLY = InstanceType.READONLY) ∨
     (py_upper "Readonly" = "R/W" ∧ InstanceType.READONLY = InstanceType.RW)) :=
  ⟨validate_instance_type_cases.2.2.2.2.2.1 "primary" (by decide) (by decide),
   validate_instance_type_cases.2.2.2.2.2.2 "Readonly" InstanceType.READONLY (by rfl)⟩

/-- C2: for every settings value with non-negative `cache_size` (GiB), the byte
count placed under the `cache_size` key of the backend configuration is exactly
the GiB value times `2 ^ 30`, it round-trips (division by `2 ^ 30` recovers the
GiB value with no loss), and it is non-negative — no truncation at any width,
since Python integers are unbounded. -/
theorem cache_size_bytes_exact (s : MiniAppSettings) (h : 0 ≤ s.cache_size) :
    (get_dbzero_config s).lookup "cache_size" =
      some (ConfigVal.int (s.cache_size * 2 ^ 30)) ∧
    (s.cache_size * 2 ^ 30) / 2 ^ 30 = s.cache_size ∧
    0 ≤ s.cache_size * 2 ^ 30 := by
  refine ⟨rfl, ?_, ?_⟩
  · exact Int.mul_ediv_cancel _ (by norm_num)
  · exact mul_nonneg h (by norm_num)

/-- Witness for C2 at the large concrete value 2 ^ 40 GiB. -/
theorem cache_size_bytes_exact_witness :
    (0 : Int) ≤ ({ cache_size := 1099511627776 } : MiniAppSettings).cache_size ∧
    ((get_dbzero_config { cache_size := 1099511627776 }).lookup "cache_size" =
        some (ConfigVal.int (1099511627776 * 2 ^ 30)) ∧
      ((1099511627776 : Int) * 2 ^ 30) / 2 ^ 30 = 1099511627776 ∧
      (0 : Int) ≤ 1099511627776 * 2 ^ 30) :=
  ⟨by decide, cache_size_bytes_exact { cache_size := 1099511627776 } (by decide)⟩

/-- C3 counterexample: the configuration handed to `Connection.setup` for the
default settings has no key named `db_dir` at all — the database directory
travels under the key `db0_dir`, so the claimed field list is wrong. -/
theorem setup_config_lacks_db_dir_key :
    (setup_kwargs {}).lookup "db_dir" = none ∧
    (setup_kwargs {}).map Prod.fst =
      ["read_write", "prefix", "autocommit", "autocommit_interval",
       "cache_size", "db0_dir"] :=
  ⟨rfl, rfl⟩

/-- C3 amended: for every settings value, the configuration handed to the storage
engine contains exactly the keys `read_write`, `prefix`, `autocommit`,
`autocommit_interval`, `cache_size` and `db0_dir`, with `autocommit` fixed to
true, `autocommit_interval` fixed to 2000, `read_write` equal to
`instance_type == RW`, and the database directory passed through unchanged
under the key `db0_dir`. -/
theorem setup_config_fields (s : MiniAppSettings) :
    (setup_kwargs s).map Prod.fst =
      ["read_write", "prefix", "autocommit", "autocommit_interval",
       "cache_size", "db0_dir"] ∧
    (setup_kwargs s).lookup "read_write" =
      some (ConfigVal.bool (s.instance_type == InstanceType.RW)) ∧
    (setup_kwargs s).lookup "prefix" = some (ConfigVal.str DATA_PREFIX) ∧
    (setup_kwargs s).lookup "autocommit" = some (ConfigVal.bool true) ∧
    (setup_kwargs s).lookup "autocommit_interval" = some (ConfigVal.int 2000) ∧
    (setup_kwargs s).lookup "cache_size" =
      some (ConfigVal.int (s.cache_size * 2 ^ 30)) ∧
    (setup_kwargs s).lookup "db0_dir" = some (ConfigVal.str s.db_dir) :=
  ⟨rfl, rfl, rfl, rfl, rfl, rfl, rfl⟩

/-- C4: setting the cache-size environment variable to the empty string does not
fall back to the declared default 1 — the `empty_str_to_none` validator turns the
empty string into `None`, which the non-`Optional` `int` field then rejects, so
`MiniAppSettings()` raises a validation error instead of constructing a value. -/
theorem empty_string_cache_size_rejected :
    MiniAppSettings.load { CACHE_SIZE := some "" } =
      Except.error "Input should be a valid integer" := rfl

/-- C5: the healthcheck returns 200 exactly when `assure_initialized` succeeds,
in which case the body reports status healthy, the app name, the version,
dbzero connected, and the instance mode; whenever `assure_initialized` signals a
fatal condition (state `Uninitialized`, i.e. before open, or `Closed`, i.e.
after close) the endpoint returns 503 with a `detail` message containing the
failure reason. -/
theorem health_check_contract (conn : ConnState) (s : MiniAppSettings) :
    ((health_check conn s).status_code = 200 ↔
      ∃ u, assure_initialized conn = Except.ok u) ∧
    (conn = ConnState.Open →
      health_check conn s =
        { status_code := 200,
          body := [("status", "healthy"), ("app_name", s.app_name),
                   ("version", s.app_version), ("dbzero_status", "connected"),
                   ("instance_type", s.instance_type.value)] }) ∧
    (∀ e, assure_initialized conn = Except.error e →
      health_check conn s =
        { status_code := 503,
          body := [("detail", "Health check failed: " ++ e)] }) ∧
    (conn = ConnState.Uninitialized ∨ conn = ConnState.Closed →
      (health_check conn s).status_code = 503) := by
  cases conn <;> simp [health_check, assure_initialized]

/-- Witness for C5 at the concrete states Open and Closed with default settings. -/
theorem health_check_contract_witness :
    health_check ConnState.Open {} =
      { status_code := 200,
        body := [("status", "healthy"), ("app_name", "Mini App"),
                 ("version", "0.1.0"), ("dbzero_status", "connected"),
                 ("instance_type", "R/W")] } ∧
    health_check ConnState.Closed {} =
      { status_code := 503,
        body := [("detail", "Health check failed: DBZero connection is closed")] } :=
  ⟨(health_check_contract ConnState.Open {}).2.1 rfl,
   (health_check_contract ConnState.Closed {}).2.2.1 "DBZero connection is closed" rfl⟩

/-- C6: the settings loader is memoized — after the first successful call has
filled the cache, every later call returns the identical settings value without
re-reading the environment (the second call's environment is arbitrary and is
ignored). -/
theorem get_settings_memoized (env env2 : Env) (s : MiniAppSettings)
    (c : Option MiniAppSettings) (h : get_settings none env = Except.ok (s, c)) :
    c = some s ∧ get_settings c env2 = Except.ok (s, c) := by
  unfold get_settings at h
  cases hload : MiniAppSettings.load env with
  | error e =>
    rw [hload] at h
    exact absurd h (by simp)
  | ok v =>
    rw [hload] at h
    simp only [Except.ok.injEq, Prod.mk.injEq] at h
    obtain ⟨hv, hc⟩ := h
    subst hv
    subst hc
    exact ⟨rfl, rfl⟩

/-- Witness for C6: first call on the empty environment, second call on a
changed environment still returns the first value. -/
theorem get_settings_memoized_witness :
    some ({} : MiniAppSettings) = some ({} : MiniAppSettings) ∧
    get_settings (some {}) { CACHE_SIZE := some "999" } =
      Except.ok (({} : MiniAppSettings), some {}) :=
  get_settings_memoized {} { CACHE_SIZE := some "999" } {} (some {}) rfl

/-- C7: the namespace path placed in the backend configuration is built from the
three fixed constants joined as /org/project/env/data and equals exactly
`/miniapp/mini_app/dev/data`, for every settings value. -/
theorem data_prefix_value :
    DATA_PREFIX = "/" ++ ORG_NAME ++ "/" ++ PROJECT_NAME ++ "/" ++ ENV ++ "/data" ∧
    DATA_PREFIX = "/miniapp/mini_app/dev/data" ∧
    ∀ s : MiniAppSettings, (get_dbzero_config s).lookup "prefix" =
      some (ConfigVal.str "/miniapp/mini_app/dev/data") :=
  ⟨rfl, rfl, fun _ => rfl⟩

/-- C8: the shutdown sequence never re-raises — for every outcome of
`Connection.close()` it completes (returns `ok` and its logs end with the final
shutdown line), and when close fails the failure is logged and swallowed. -/
theorem shutdown_swallows_close_failure (r : Except String Unit) :
    (∃ logs, lifespan_shutdown r = Except.ok logs ∧ "Shutdown complete!" ∈ logs) ∧
    (∀ e, r = Except.error e →
      lifespan_shutdown r =
        Except.ok ["Shutting down Mini App...", "Error during shutdown: " ++ e,
                   "Shutdown complete!"]) := by
  cases r <;> simp [lifespan_shutdown]

/-- Witness for C8 at a concrete failing close. -/
theorem shutdown_swallows_close_failure_witness :
    lifespan_shutdown (Except.error "device busy") =
      Except.ok ["Shutting down Mini App...", "Error during shutdown: device busy",
                 "Shutdown complete!"] :=
  (shutdown_swallows_close_failure (Except.error "device busy")).2 "device busy" rfl

/-- C9 counterexample: the loader accepts the environment values CACHE_SIZE="0"
and PORT="70000", producing a settings value whose cache size is not positive
and whose port is above 65535 — the claimed invariants do not hold for every
successfully constructed settings value. -/
theorem settings_range_invariants_counterexample :
    MiniAppSettings.load { CACHE_SIZE := some "0", PORT := some "70000" } =
      Except.ok { cache_size := 0, port := 70000 } ∧
    ({ cache_size := 0, port := 70000 } : MiniAppSettings).cache_size ≤ 0 ∧
    65535 < ({ cache_size := 0, port := 70000 } : MiniAppSettings).port :=
  ⟨rfl, by decide, by decide⟩

/-- C9 amended: the loader enforces only integer parsing for cache size and port,
with no range validation — the declared defaults do satisfy cache_size = 1 > 0
and port = 8080 in 1..65535, but out-of-range integers such as cache_size = -5
and port = 0 are accepted as well. -/
theorem settings_range_not_validated :
    (MiniAppSettings.load {} = Except.ok {} ∧
      0 < ({} : MiniAppSettings).cache_size ∧
      1 ≤ ({} : MiniAppSettings).port ∧ ({} : MiniAppSettings).port ≤ 65535) ∧
    MiniAppSettings.load { CACHE_SIZE := some "-5", PORT := some "0" } =
      Except.ok { cache_size := -5, port := 0 } :=
  ⟨⟨rfl, by decide, by decide, by decide⟩, rfl⟩

/-- C10: the loader accepts zero and negative integer cache sizes (only integer
parsing is enforced); for every integer cache size g the backend configuration
is produced without error and carries exactly g * 2 ^ 30 bytes under the
`cache_size` key, which is non-positive when g is non-positive and positive
when g is positive. -/
theorem dbzero_config_cache_size_total (g : Int) :
    MiniAppSettings.load { CACHE_SIZE := some "0" } = Except.ok { cache_size := 0 } ∧
    MiniAppSettings.load { CACHE_SIZE := some "-3" } = Except.ok { cache_size := -3 } ∧
    (get_dbzero_config { cache_size := g }).lookup "cache_size" =
      some (ConfigVal.int (g * 2 ^ 30)) ∧
    (g ≤ 0 → g * 2 ^ 30 ≤ 0) ∧
    (0 < g → 0 < g * 2 ^ 30) := by
  refine ⟨rfl, rfl, rfl, ?_, ?_⟩
  · intro hg
    have h30 : (2 : Int) ^ 30 = 1073741824 := by norm_num
    rw [h30]
    omega
  · intro hg
    have h30 : (2 : Int) ^ 30 = 1073741824 := by norm_num
    rw [h30]
    omega

/-- Witness for C10 at the concrete cache sizes -3 and 4 GiB. -/
theorem dbzero_config_cache_size_total_witness :
    ((-3 : Int) * 2 ^ 30 ≤ 0) ∧ (0 < (4 : Int) * 2 ^ 30) :=
  ⟨(dbzero_config_cache_size_total (-3)).2.2.2.1 (by decide),
   (dbzero_config_cache_size_total 4).2.2.2.2 (by decide)⟩

end MiniApp
